import Mathlib

/-!
Verification of the Winter Cheer NFT trait-generation core and its
surrounding operations, shallowly embedded from the TypeScript sources
`src/lib/trait-generator.ts`, `src/hooks/useWinterCheerMint.ts` and
`src/app/api/send-notification/route.ts`.

JavaScript numbers are modelled as exact rationals (ℚ).  `Math.sin` is a
transcendental function with no computable exact counterpart, so it is
abstracted as an explicit function parameter `sinF : ℚ → ℚ`; every theorem
below holds for an arbitrary `sinF`, hence in particular for any concrete
floating-point sine.
-/

/-- The gender enum of `WinterCheerTraits` (`'Male' | 'Female'`). -/
inductive Gender where
  | male
  | female
deriving DecidableEq, Repr

/-- String value of a `Gender`, as it appears in the TypeScript union type. -/
def genderToString : Gender → String
  | Gender.male => "Male"
  | Gender.female => "Female"

/-- Catalog `SKIN_TONES` from `trait-generator.ts`. -/
def SKIN_TONES : List String :=
  ["Porcelain", "Fair", "Light", "Medium", "Tan", "Deep"]

/-- Catalog `HAIR_STYLES` from `trait-generator.ts`. -/
def HAIR_STYLES : List String :=
  ["Short Spiky", "Wavy Bob", "Long Straight", "Twin Tails", "Ponytail",
   "Messy Bun", "Braided Crown", "Side Part", "Curly Afro", "Pixie Cut",
   "Long Wavy", "Straight Bang", "Side Swept", "High Ponytail",
   "Low Pigtails", "Shoulder Length", "Wolf Cut", "Mullet", "Buzz Cut",
   "Dreadlocks"]

/-- Catalog `EYE_STYLES` from `trait-generator.ts`. -/
def EYE_STYLES : List String :=
  ["Round Sparkle", "Sleepy", "Cat Eyes", "Wide Innocent", "Sharp",
   "Determined", "Gentle", "Mysterious", "Happy Crescent", "Serious",
   "Cute Dot", "Starry", "Sad", "Closed Smile", "Intense"]

/-- Catalog `OUTFITS` from `trait-generator.ts`. -/
def OUTFITS : List String :=
  ["Santa Suit", "Ski Outfit", "Rudolf Costume", "Elf Outfit",
   "Snowman Costume", "Gingerbread Costume", "Ice Royalty",
   "Candy Cane Striped", "Mrs. Claus Dress", "Winter Warrior"]

/-- Catalog `ACCESSORIES` from `trait-generator.ts`. -/
def ACCESSORIES : List String :=
  ["Candy Cane", "Teddy Bear", "Gift Box", "Snowflake Wand",
   "Ornament Ball", "Jingle Bells", "Mistletoe Branch", "Winter Scarf",
   "Snow Globe", "Holiday Wreath", "Hot Cocoa Mug", "Gingerbread Cookie",
   "String Lights", "Poinsettia", "None"]

/-- Catalog `HEAD_ACCESSORIES` from `trait-generator.ts`. -/
def HEAD_ACCESSORIES : List String :=
  ["Santa Hat", "Reindeer Antlers", "Elf Hat", "Winter Beanie",
   "Fuzzy Earmuffs", "Holly Crown", "Snowflake Tiara", "Knit Cap",
   "Aviator Hat", "Halo", "Festive Headband", "None"]

/-- Catalog `BACKGROUNDS` from `trait-generator.ts`. -/
def BACKGROUNDS : List String :=
  ["Snowy Forest", "Cozy Fireplace Room", "North Pole Workshop",
   "Snow-Covered Village", "Starry Winter Night", "Aurora Borealis",
   "Candy Cane Land", "Santa\x27s Workshop Interior", "Ice Castle",
   "Christmas Tree Farm"]

/-- Catalog `SPECIAL_EFFECTS` from `trait-generator.ts`. -/
def SPECIAL_EFFECTS : List String :=
  ["Falling Snowflakes", "Magic Sparkles", "Festive Glow",
   "Frost Particles", "Golden Light", "Star Dust", "Aurora Shimmer",
   "None"]

/-- Embedding of `seededRandom(fid, seed)`:
`x = Math.sin(fid * 12.9898 + seed * 78.233) * 43758.5453; return x - Math.floor(x)`.
The sine is the abstract parameter `sinF`. -/
def seededRandom (sinF : ℚ → ℚ) (fid seed : ℚ) : ℚ :=
  let x := sinF (fid * 12.9898 + seed * 78.233) * 43758.5453
  x - ⌊x⌋

/-- The array index computed inside `pickRandom`:
`Math.floor(seededRandom(fid, seed) * array.length)`. -/
def pickIndex (len : ℕ) (sinF : ℚ → ℚ) (fid seed : ℚ) : ℤ :=
  ⌊seededRandom sinF fid seed * len⌋

/-- Embedding of `pickRandom(array, fid, seed)`, i.e. `array[index]`.
A JavaScript out-of-range access yields `undefined`, modelled by `none`. -/
def pickRandom (array : List String) (sinF : ℚ → ℚ) (fid seed : ℚ) :
    Option String :=
  let index := pickIndex array.length sinF fid seed
  if index < 0 then none else array.get? index.toNat

/-- The string actually stored in a trait field.  The TypeScript signature of
`pickRandom` asserts the element type `T = string`; the sentinel value
`"undefined"` stands for a JavaScript `undefined` leaking through that cast
and is proved unreachable (`pickRandom_eq_some`). -/
def pickRandomD (array : List String) (sinF : ℚ → ℚ) (fid seed : ℚ) :
    String :=
  (pickRandom array sinF fid seed).getD "undefined"

/-- The `WinterCheerTraits` record interface from `trait-generator.ts`. -/
structure WinterCheerTraits where
  gender : Gender
  skinTone : String
  hairStyle : String
  hairColor : String
  eyeStyle : String
  outfit : String
  outfitColor : String
  accessory : String
  headAccessory : String
  background : String
  specialEffect : String
deriving DecidableEq, Repr

/-- Embedding of `generateTraits(fid, gender, dominantColor)`. -/
def generateTraits (sinF : ℚ → ℚ) (fid : ℚ) (gender : Gender)
    (dominantColor : String) : WinterCheerTraits :=
  { gender := gender
    skinTone := pickRandomD SKIN_TONES sinF fid 1
    hairStyle := pickRandomD HAIR_STYLES sinF fid 2
    hairColor := dominantColor
    eyeStyle := pickRandomD EYE_STYLES sinF fid 3
    outfit := pickRandomD OUTFITS sinF fid 4
    outfitColor := dominantColor
    accessory := pickRandomD ACCESSORIES sinF fid 5
    headAccessory := pickRandomD HEAD_ACCESSORIES sinF fid 6
    background := pickRandomD BACKGROUNDS sinF fid 7
    specialEffect := pickRandomD SPECIAL_EFFECTS sinF fid 8 }

/-- One `{ trait_type, value }` entry of the OpenSea attribute list. -/
structure Attribute where
  trait_type : String
  value : String
deriving DecidableEq, Repr

/-- Embedding of `traitsToAttributes(traits)`. -/
def traitsToAttributes (traits : WinterCheerTraits) : List Attribute :=
  [{ trait_type := "Gender", value := genderToString traits.gender },
   { trait_type := "Skin Tone", value := traits.skinTone },
   { trait_type := "Hair Style", value := traits.hairStyle },
   { trait_type := "Hair Color", value := traits.hairColor },
   { trait_type := "Eye Style", value := traits.eyeStyle },
   { trait_type := "Outfit", value := traits.outfit },
   { trait_type := "Outfit Color", value := traits.outfitColor },
   { trait_type := "Accessory", value := traits.accessory },
   { trait_type := "Head Accessory", value := traits.headAccessory },
   { trait_type := "Background", value := traits.background },
   { trait_type := "Special Effect", value := traits.specialEffect }]

/-- Embedding of `hex.replace('#', '')`: JavaScript `String.replace` with a
string pattern removes only the first occurrence. -/
def removeFirstHashAux : List Char → List Char
  | [] => []
  | c :: cs => if c = '#' then cs else c :: removeFirstHashAux cs

/-- String-level wrapper of `removeFirstHashAux`. -/
def removeFirstHash (s : String) : String :=
  String.mk (removeFirstHashAux s.data)

/-- Embedding of `s.substring(a, b)` for `a ≤ b` (the only way the source
calls it): the characters from position `a` up to, not including, `b`. -/
def jsSubstring (s : String) (a b : ℕ) : String :=
  String.mk ((s.data.drop a).take (b - a))

/-- Numeric value of one hexadecimal digit, both cases accepted, `none` for
any other character. -/
def hexDigitVal (c : Char) : Option ℕ :=
  if '0' ≤ c ∧ c ≤ '9' then some (c.toNat - 48)
  else if 'a' ≤ c ∧ c ≤ 'f' then some (c.toNat - 87)
  else if 'A' ≤ c ∧ c ≤ 'F' then some (c.toNat - 55)
  else none

/-- Accumulating loop of `parseInt(s, 16)`: consume hex digits until the
first non-digit. -/
def parseIntHexAux : List Char → ℕ → ℕ
  | [], acc => acc
  | c :: cs, acc =>
    match hexDigitVal c with
    | some d => parseIntHexAux cs (16 * acc + d)
    | none => acc

/-- Embedding of `parseInt(s, 16)` on the digit substrings the source feeds
it: `none` models the `NaN` returned when the first character is not a hex
digit (or the string is empty). -/
def parseIntHex (s : String) : Option ℕ :=
  match s.data with
  | [] => none
  | c :: cs =>
    match hexDigitVal c with
    | none => none
    | some d => some (parseIntHexAux cs d)

/-- The grayscale result names of `hexToColorName` (early returns taken when
saturation is below the 0.1 threshold). -/
def GRAYSCALE_NAMES : List String :=
  ["pure white", "light gray", "medium gray", "dark gray", "black"]

/-- The five brightness band names of `hexToColorName`. -/
def BRIGHTNESS_NAMES : List String :=
  ["very light", "light", "medium", "deep", "very dark"]

/-- The four saturation band names of `hexToColorName`. -/
def SATURATION_NAMES : List String :=
  ["vivid", "vibrant", "muted", "pale"]

/-- The hue family names assignable by the hue-bucketing chain of
`hexToColorName`, in source order. -/
def COLOR_FAMILY_NAMES : List String :=
  ["red", "orange-red", "orange", "yellow-orange", "yellow-green", "green",
   "cyan-green", "cyan", "blue", "purple-blue", "purple", "magenta",
   "pink-red"]

/-- The hex-to-HSL conversion block of `hexToColorName` (its local
`h`, `s`, `l`), on exact rationals, returned as the triple `(h, s, l)`. -/
def hslOfRGB (r g b : ℕ) : ℚ × ℚ × ℚ :=
  let rNorm : ℚ := r / 255
  let gNorm : ℚ := g / 255
  let bNorm : ℚ := b / 255
  let maxV := max rNorm (max gNorm bNorm)
  let minV := min rNorm (min gNorm bNorm)
  let delta := maxV - minV
  let l := (maxV + minV) / 2
  let s : ℚ :=
    if delta ≠ 0 then
      (if l > 0.5 then delta / (2 - maxV - minV) else delta / (maxV + minV))
    else 0
  let h : ℚ :=
    if delta ≠ 0 then
      (if maxV = rNorm then
        ((gNorm - bNorm) / delta + (if gNorm < bNorm then 6 else 0)) / 6
       else if maxV = gNorm then ((bNorm - rNorm) / delta + 2) / 6
       else ((rNorm - gNorm) / delta + 4) / 6)
    else 0
  (h, s, l)

/-- Body of `hexToColorName` after the three `parseInt` calls:
brightness/saturation banding, grayscale early return, hue bucketing. -/
def colorNameOfRGB (r g b : ℕ) : String :=
  let h := (hslOfRGB r g b).1
  let s := (hslOfRGB r g b).2.1
  let l := (hslOfRGB r g b).2.2
  let brightness : String :=
    if l > 0.8 then "very light"
    else if l > 0.6 then "light"
    else if l > 0.4 then "medium"
    else if l > 0.2 then "deep"
    else "very dark"
  let saturation : String :=
    if s > 0.8 then "vivid"
    else if s > 0.5 then "vibrant"
    else if s > 0.2 then "muted"
    else "pale"
  let hue := h * 360
  if s < 0.1 then
    (if l > 0.9 then "pure white"
     else if l > 0.7 then "light gray"
     else if l > 0.5 then "medium gray"
     else if l > 0.3 then "dark gray"
     else "black")
  else
    let colorFamily : String :=
      if hue < 15 ∨ hue ≥ 345 then "red"
      else if hue < 45 then "orange-red"
      else if hue < 70 then "orange"
      else if hue < 90 then "yellow-orange"
      else if hue < 150 then "yellow-green"
      else if hue < 170 then "green"
      else if hue < 200 then "cyan-green"
      else if hue < 220 then "cyan"
      else if hue < 250 then "blue"
      else if hue < 280 then "purple-blue"
      else if hue < 310 then "purple"
      else if hue < 330 then "magenta"
      else "pink-red"
    saturation ++ " " ++ brightness ++ " " ++ colorFamily

/-- Embedding of `hexToColorName(hex)`.  When a channel substring fails to
parse, the source computes with `NaN` (every comparison involving `NaN` is
false) and still returns a descriptor string; that `NaN` path lies outside
the exact-rational embedding and is marked `none` here.  All claims about
this function concern parseable inputs. -/
def hexToColorName (hex : String) : Option String :=
  let cleanHex := removeFirstHash hex
  match parseIntHex (jsSubstring cleanHex 0 2),
      parseIntHex (jsSubstring cleanHex 2 4),
      parseIntHex (jsSubstring cleanHex 4 6) with
  | some r, some g, some b => some (colorNameOfRGB r g b)
  | _, _, _ => none

/-- Embedding of `buildPromptFromTraits(traits)`.  Inherits the `none` marker
of `hexToColorName` for unparseable hair colors. -/
def buildPromptFromTraits (traits : WinterCheerTraits) : Option String :=
  (hexToColorName traits.hairColor).map fun descriptiveColor =>
    let genderDesc :=
      if traits.gender = Gender.male then
        "masculine anime boy with sharp facial features, defined jawline, broader shoulders, boyish charm"
      else
        "feminine anime girl with soft delicate features, gentle expression, graceful appearance, cute demeanor"
    let styleDesc := "cute anime chibi character"
    let hairColorEmphasis :=
      "BRIGHT " ++ descriptiveColor ++
        " colored hair, the hair MUST be EXACTLY this " ++ descriptiveColor ++
        " shade"
    let outfitColorEmphasis :=
      traits.outfit.toLower ++ " outfit that MUST be PRECISELY " ++
        descriptiveColor ++ " color, matching the hair color EXACTLY"
    styleDesc ++ " " ++ genderDesc ++ ", " ++ traits.skinTone.toLower ++
      " skin tone, " ++ traits.hairStyle.toLower ++ " hairstyle with " ++
      hairColorEmphasis ++ ", " ++ traits.eyeStyle.toLower ++
      " eyes, wearing " ++ outfitColorEmphasis ++
      ". CRITICAL: Both the hair AND outfit MUST be " ++ descriptiveColor ++
      " color. Holding " ++ traits.accessory.toLower ++ ", wearing " ++
      traits.headAccessory.toLower ++ ", " ++ traits.background.toLower ++
      " background, " ++ traits.specialEffect.toLower ++
      ", kawaii Christmas aesthetic, Seal Online game character style, professional anime illustration, 4k quality, detailed and colorful. THE PRIMARY COLOR SCHEME MUST BE " ++
      descriptiveColor ++ " for both hair and outfit - this is MANDATORY."

/-- The HSL saturation value computed inside `hexToColorName` (the `s` of
its source), exposed so the grayscale-threshold behaviour can be stated. -/
def hslSaturation (r g b : ℕ) : ℚ :=
  (hslOfRGB r g b).2.1

/-- JavaScript truthiness of a nullable string (`undefined`/`null` and the
empty string are falsy). -/
def optStringTruthy : Option String → Bool
  | none => false
  | some s => !(s == "")

/-- JavaScript truthiness of a nullable number (`undefined`/`null` and `0`
are falsy). -/
def optNatTruthy : Option ℕ → Bool
  | none => false
  | some n => !(n == 0)

/-- The `step` values of the hook's `MintState`. -/
inductive MStep where
  | idle
  | analyzing
  | generating
  | uploading
  | minting
  | success
  | error
deriving DecidableEq, Repr

/-- The `MintState` record of `useWinterCheerMint.ts`.  The `traits` payload
type (`NFTTraits`) is declared in a module not present in the repository
snapshot, so the field only records whether traits were set. -/
structure MintState where
  step : MStep
  message : String
  progress : ℕ
  traits : Option Unit
  previewImageUrl : Option String
  txHash : Option String
  tokenId : Option ℕ
  error : Option String
deriving DecidableEq, Repr

/-- Observable actions of one `mintNFT` run: every `setMintState` that
changes the `step` field, and every collaborator invocation, in program
order. -/
inductive MEvent where
  | setStep (s : MStep)
  | callAnalyzeColor
  | callAdjustColor
  | callGenerateTraits
  | callBuildPrompt
  | callGenerateImage
  | callGenerateTokenId
  | callDataUrlToBlob
  | callGenerateMetadata
  | callUpload
  | callPrepareMintTx
  | callSendTransaction
  | callWaitReceipt
  | callRecordMint
  | callSaveMetadata
deriving DecidableEq, Repr

/-- Inputs of one `mintNFT` run: the hook's reactive values plus outcome
oracles for each asynchronous collaborator (`Except.error` models a thrown
rejection caught by the `try`/`catch`). -/
structure MintInputs where
  isConnected : Bool
  address : Option String
  walletClient : Bool
  publicClient : Bool
  fid : Option ℕ
  pfpUrl : Option String
  hasAlreadyMinted : Bool
  spaceConnected : Bool
  analyzeColor : String → Except String (String × String)
  adjustColor : String → String
  buildPrompt : String
  generateImage : String → Except String String
  genTokenId : ℕ
  upload : Except String (String × String)
  sendTx : Except String String
  waitReceipt : Except String Unit

/-- The `catch` handler of `mintNFT`: keep the current state, set `step` to
`error` and store the message. -/
def failState (st : MintState) (e : String) : MintState :=
  { st with step := MStep.error, error := some e }

/-- Embedding of the `mintNFT` callback of `useWinterCheerMint.ts`,
returning the final `MintState` together with the trace of observable
events. -/
def mintNFT (inp : MintInputs) (prev : MintState) : MintState × List MEvent :=
  if !inp.isConnected || !optStringTruthy inp.address || !inp.walletClient ||
      !optNatTruthy inp.fid || !optStringTruthy inp.pfpUrl then
    ({ prev with
        error := some "Please connect wallet and ensure Farcaster context is loaded" },
     [])
  else if inp.hasAlreadyMinted then
    ({ prev with
        error := some ("FID " ++ toString (inp.fid.getD 0) ++
          " has already minted a Winter Cheer NFT") },
     [])
  else
    let st1 : MintState :=
      { step := MStep.analyzing, message := "Analyzing your profile picture...",
        progress := 10, traits := none, previewImageUrl := none,
        txHash := none, tokenId := none, error := none }
    let ev1 : List MEvent := [MEvent.setStep MStep.analyzing,
      MEvent.callAnalyzeColor]
    match inp.analyzeColor (inp.pfpUrl.getD "") with
    | Except.error e => (failState st1 e, ev1 ++ [MEvent.setStep MStep.error])
    | Except.ok colorAnalysis =>
      let _adjustedColor := inp.adjustColor colorAnalysis.1
      let st2 := { st1 with
        message := "Generating unique traits..."
        progress := 20 }
      let st3 := { st2 with
        traits := some ()
        progress := 30 }
      let st4 := { st3 with
        step := MStep.generating
        message := "Creating your unique character with AI..."
        progress := 40 }
      let ev4 := ev1 ++ [MEvent.callAdjustColor, MEvent.callGenerateTraits,
        MEvent.setStep MStep.generating, MEvent.callBuildPrompt,
        MEvent.callGenerateImage]
      match inp.generateImage inp.buildPrompt with
      | Except.error e => (failState st4 e, ev4 ++ [MEvent.setStep MStep.error])
      | Except.ok img =>
        let st5 := { st4 with
          previewImageUrl := some img
          progress := 60 }
        let st6 := { st5 with
          step := MStep.uploading
          message := "Uploading to IPFS..."
          progress := 70 }
        let ev6 := ev4 ++ [MEvent.setStep MStep.uploading,
          MEvent.callGenerateTokenId, MEvent.callDataUrlToBlob,
          MEvent.callGenerateMetadata, MEvent.callUpload]
        match inp.upload with
        | Except.error e =>
          (failState st6 e, ev6 ++ [MEvent.setStep MStep.error])
        | Except.ok _uris =>
          let st7 := { st6 with progress := 80 }
          let st8 := { st7 with
            step := MStep.minting
            message := "Minting your NFT on Base..."
            progress := 85 }
          let ev8 := ev6 ++ [MEvent.setStep MStep.minting,
            MEvent.callPrepareMintTx, MEvent.callSendTransaction]
          match inp.sendTx with
          | Except.error e =>
            (failState st8 e, ev8 ++ [MEvent.setStep MStep.error])
          | Except.ok hash =>
            let st9 := { st8 with
              message := "Waiting for confirmation..."
              progress := 90 }
            let evReceipt := if inp.publicClient then [MEvent.callWaitReceipt]
              else []
            let receiptOutcome := if inp.publicClient then inp.waitReceipt
              else Except.ok ()
            match receiptOutcome with
            | Except.error e =>
              (failState st9 e, ev8 ++ evReceipt ++ [MEvent.setStep MStep.error])
            | Except.ok _ =>
              let evRecord := if inp.spaceConnected then
                [MEvent.callRecordMint, MEvent.callSaveMetadata] else []
              ({ step := MStep.success
                 message := "NFT minted successfully!"
                 progress := 100
                 traits := some ()
                 previewImageUrl := some img
                 txHash := some hash
                 tokenId := some inp.genTokenId
                 error := none },
               ev8 ++ evReceipt ++ evRecord ++ [MEvent.setStep MStep.success])

/-- Initial idle `MintState`, as the hook constructs it. -/
def mintPrevW : MintState :=
  { step := MStep.idle
    message := ""
    progress := 0
    traits := none
    previewImageUrl := none
    txHash := none
    tokenId := none
    error := none }

/-- Concrete `MintInputs` with the already-minted flag set. -/
def mintInputsW : MintInputs :=
  { isConnected := true
    address := some "0x1234"
    walletClient := true
    publicClient := true
    fid := some 1
    pfpUrl := some "https://pfp.example/img.png"
    hasAlreadyMinted := true
    spaceConnected := true
    analyzeColor := fun _ => Except.ok ("#FFFFFF", "#FFFFFF")
    adjustColor := fun c => c
    buildPrompt := ""
    generateImage := fun _ => Except.ok ""
    genTokenId := 1
    upload := Except.ok ("", "")
    sendTx := Except.ok ""
    waitReceipt := Except.ok () }

/-- One active notification token record, as used by the route
(`{ token, notification_url }`). -/
structure TokenInfo where
  token : String
  notification_url : String
deriving DecidableEq, Repr

/-- The JSON body of a send-notification request; absent fields are
`none`. -/
structure SendNotificationRequest where
  fids : Option (List ℕ)
  broadcast : Option Bool
  notificationId : Option String
  title : Option String
  body : Option String
  targetUrl : Option String
deriving Repr

/-- One outgoing `fetch` to a notification relay URL: the payload the route
posts, with the batched token list. -/
structure Delivery where
  notificationUrl : String
  notificationId : String
  title : String
  body : String
  targetUrl : String
  tokens : List String
deriving DecidableEq, Repr

/-- Result of the POST handler: a 400 validation response, a 500 response,
the early 200 response when no recipients exist, or the list of relay
deliveries issued. -/
inductive PostResult where
  | badRequest (msg : String)
  | serverError (msg : String)
  | okNoRecipients
  | ok (deliveries : List Delivery)
deriving DecidableEq, Repr

/-- The relay deliveries issued by a handler run (none on any early
return). -/
def deliveriesOf : PostResult → List Delivery
  | PostResult.ok ds => ds
  | _ => []

/-- Whether the handler answered with a 400 validation error. -/
def isBadRequest : PostResult → Bool
  | PostResult.badRequest _ => true
  | _ => false

/-- Fuel-indexed slicing loop: with fuel at least the list length this is
`for (i = 0; i < n; i += size) slice(i, i + size)`. -/
def chunksAux {α : Type} (size : ℕ) : ℕ → List α → List (List α)
  | _, [] => []
  | 0, _ :: _ => []
  | fuel + 1, x :: xs => (x :: xs).take size :: chunksAux size fuel ((x :: xs).drop size)

/-- The route's batching: consecutive slices of at most `size` elements. -/
def jsChunks {α : Type} (size : ℕ) (l : List α) : List (List α) :=
  chunksAux size l.length l

/-- One step of the `Map`-based grouping loop: append `item` to its URL
group, creating the group at the end on first sight (JavaScript `Map`
preserves insertion order). -/
def insertGroup (acc : List (String × List TokenInfo)) (item : TokenInfo) :
    List (String × List TokenInfo) :=
  match acc with
  | [] => [(item.notification_url, [item])]
  | (u, its) :: rest =>
    if u = item.notification_url then (u, its ++ [item]) :: rest
    else (u, its) :: insertGroup rest item

/-- The route's per-batch grouping of tokens by notification URL. -/
def groupByUrl (batch : List TokenInfo) : List (String × List TokenInfo) :=
  batch.foldl insertGroup []

/-- Total number of items over all groups. -/
def totalLen (gs : List (String × List TokenInfo)) : ℕ :=
  (gs.map fun g => g.2.length).sum

/-- The delivery phase of the handler: early 200 when there are no
recipients, otherwise one `fetch` per (batch, URL group). -/
def sendToTokens (nid title messageBody targetUrl : String)
    (tokensToSend : List TokenInfo) : PostResult :=
  if tokensToSend.length = 0 then PostResult.okNoRecipients
  else
    PostResult.ok ((jsChunks 100 tokensToSend).flatMap fun batch =>
      (groupByUrl batch).map fun grp =>
        { notificationUrl := grp.1
          notificationId := nid
          title := title
          body := messageBody
          targetUrl := targetUrl
          tokens := grp.2.map TokenInfo.token })

/-- Embedding of the POST handler of `send-notification/route.ts`.
`activeTokens` is the outcome of `getActiveNotificationTokens` and
`tokenByFid` of `getNotificationTokenByFid`. -/
def sendNotificationPOST (req : SendNotificationRequest)
    (activeTokens : Except String (List TokenInfo))
    (tokenByFid : ℕ → Option TokenInfo) : PostResult :=
  if !(optStringTruthy req.title && optStringTruthy req.body) then
    PostResult.badRequest "Title and body are required"
  else if !optStringTruthy req.notificationId then
    PostResult.badRequest "notificationId is required for idempotency"
  else if !optStringTruthy req.targetUrl then
    PostResult.badRequest "targetUrl is required"
  else if 32 < (req.title.getD "").length then
    PostResult.badRequest "Title must be max 32 characters"
  else if 128 < (req.body.getD "").length then
    PostResult.badRequest "Body must be max 128 characters"
  else if 1024 < (req.targetUrl.getD "").length then
    PostResult.badRequest "targetUrl must be max 1024 characters"
  else if req.broadcast.getD false then
    match activeTokens with
    | Except.error e => PostResult.serverError e
    | Except.ok toks =>
      sendToTokens (req.notificationId.getD "") (req.title.getD "")
        (req.body.getD "") (req.targetUrl.getD "") toks
  else
    match req.fids with
    | some fids =>
      if 0 < fids.length then
        sendToTokens (req.notificationId.getD "") (req.title.getD "")
          (req.body.getD "") (req.targetUrl.getD "")
          (fids.filterMap tokenByFid)
      else
        PostResult.badRequest
          "Either broadcast must be true or fids array must be provided"
    | none =>
      PostResult.badRequest
        "Either broadcast must be true or fids array must be provided"

/-- Concrete request lacking the idempotency key. -/
def reqMissingIdW : SendNotificationRequest :=
  { fids := none
    broadcast := some true
    notificationId := none
    title := some "Hello"
    body := some "World"
    targetUrl := some "https://example.com/app" }

/-- Concrete valid broadcast request. -/
def reqValidW : SendNotificationRequest :=
  { fids := none
    broadcast := some true
    notificationId := some "notif-1"
    title := some "Hi"
    body := some "Yo"
    targetUrl := some "https://example.com/app" }

/-- Two active tokens registered at the same relay URL. -/
def toksW : List TokenInfo :=
  [{ token := "tok1", notification_url := "https://relay.example/notify" },
   { token := "tok2", notification_url := "https://relay.example/notify" }]

/-- The single delivery the handler issues for `reqValidW` and `toksW`. -/
def deliveryW : Delivery :=
  { notificationUrl := "https://relay.example/notify"
    notificationId := "notif-1"
    title := "Hi"
    body := "Yo"
    targetUrl := "https://example.com/app"
    tokens := ["tok1", "tok2"] }

/-- The fractional-part construction in `seededRandom` is nonnegative. -/
theorem seededRandom_nonneg (sinF : ℚ → ℚ) (fid seed : ℚ) :
    0 ≤ seededRandom sinF fid seed :=
  Int.fract_nonneg (sinF (fid * 12.9898 + seed * 78.233) * 43758.5453)

/-- The fractional-part construction in `seededRandom` is below one. -/
theorem seededRandom_lt_one (sinF : ℚ → ℚ) (fid seed : ℚ) :
    seededRandom sinF fid seed < 1 :=
  Int.fract_lt_one (sinF (fid * 12.9898 + seed * 78.233) * 43758.5453)

/-- The computed catalog index is never negative. -/
theorem pickIndex_nonneg (len : ℕ) (sinF : ℚ → ℚ) (fid seed : ℚ) :
    0 ≤ pickIndex len sinF fid seed :=
  Int.floor_nonneg.mpr
    (mul_nonneg (seededRandom_nonneg sinF fid seed) (Nat.cast_nonneg len))

/-- The computed catalog index is below the catalog length. -/
theorem pickIndex_lt (len : ℕ) (hlen : 0 < len) (sinF : ℚ → ℚ)
    (fid seed : ℚ) : pickIndex len sinF fid seed < len := by
  have hcast : (0 : ℚ) < (len : ℚ) := by exact_mod_cast hlen
  have hmul : seededRandom sinF fid seed * (len : ℚ) < (len : ℚ) :=
    mul_lt_of_lt_one_left hcast (seededRandom_lt_one sinF fid seed)
  exact Int.floor_lt.mpr (by push_cast; exact hmul)

/-- Every `pickRandom` call on a nonempty catalog returns a defined element
of that catalog. -/
theorem pickRandom_eq_some (array : List String) (sinF : ℚ → ℚ)
    (fid seed : ℚ) (h : array ≠ []) :
    ∃ a, pickRandom array sinF fid seed = some a ∧ a ∈ array := by
  have h0 : 0 ≤ pickIndex array.length sinF fid seed :=
    pickIndex_nonneg array.length sinF fid seed
  have hlt : pickIndex array.length sinF fid seed < array.length :=
    pickIndex_lt array.length (List.length_pos.mpr h) sinF fid seed
  have hnat : (pickIndex array.length sinF fid seed).toNat < array.length := by
    omega
  refine ⟨array.get ⟨(pickIndex array.length sinF fid seed).toNat, hnat⟩,
    ?_, List.get_mem array _ _⟩
  unfold pickRandom
  simp only [not_lt.mpr h0, if_neg, if_false]
  exact List.get?_eq_get hnat

/-- Value-level form of `pickRandom_eq_some` for the stored field. -/
theorem pickRandomD_mem (array : List String) (sinF : ℚ → ℚ)
    (fid seed : ℚ) (h : array ≠ []) :
    pickRandomD array sinF fid seed ∈ array := by
  obtain ⟨a, hsome, hmem⟩ := pickRandom_eq_some array sinF fid seed h
  unfold pickRandomD
  rw [hsome]
  exact hmem

/-- C1: for every identifier (any rational, hence every non-negative safe
integer including 0), every gender, every color and every sine function,
each of the eight categorical fields of `generateTraits` is an element of
its declared catalog, and the index `floor(seededRandom(fid, k) * len)`
always lies in `[0, len - 1]`, so `pickRandom` never accesses out of range. -/
theorem generateTraits_catalog_bounds (sinF : ℚ → ℚ) (fid : ℚ) (g : Gender)
    (c : String) :
    ((generateTraits sinF fid g c).skinTone ∈ SKIN_TONES ∧
     (generateTraits sinF fid g c).hairStyle ∈ HAIR_STYLES ∧
     (generateTraits sinF fid g c).eyeStyle ∈ EYE_STYLES ∧
     (generateTraits sinF fid g c).outfit ∈ OUTFITS ∧
     (generateTraits sinF fid g c).accessory ∈ ACCESSORIES ∧
     (generateTraits sinF fid g c).headAccessory ∈ HEAD_ACCESSORIES ∧
     (generateTraits sinF fid g c).background ∈ BACKGROUNDS ∧
     (generateTraits sinF fid g c).specialEffect ∈ SPECIAL_EFFECTS) ∧
    (∀ (len : ℕ) (seed : ℚ), 0 < len →
      0 ≤ pickIndex len sinF fid seed ∧ pickIndex len sinF fid seed < len) := by
  refine ⟨⟨?_, ?_, ?_, ?_, ?_, ?_, ?_, ?_⟩, fun len seed hlen =>
    ⟨pickIndex_nonneg len sinF fid seed, pickIndex_lt len hlen sinF fid seed⟩⟩
  · exact pickRandomD_mem SKIN_TONES sinF fid 1 (by decide)
  · exact pickRandomD_mem HAIR_STYLES sinF fid 2 (by decide)
  · exact pickRandomD_mem EYE_STYLES sinF fid 3 (by decide)
  · exact pickRandomD_mem OUTFITS sinF fid 4 (by decide)
  · exact pickRandomD_mem ACCESSORIES sinF fid 5 (by decide)
  · exact pickRandomD_mem HEAD_ACCESSORIES sinF fid 6 (by decide)
  · exact pickRandomD_mem BACKGROUNDS sinF fid 7 (by decide)
  · exact pickRandomD_mem SPECIAL_EFFECTS sinF fid 8 (by decide)

/-- Witness for `generateTraits_catalog_bounds` at a concrete input. -/
theorem generateTraits_catalog_bounds_witness :
    (generateTraits (fun _ => 0) 0 Gender.male "#FF0000").skinTone ∈
      SKIN_TONES ∧
    0 ≤ pickIndex 6 (fun _ => 0) 0 1 ∧ pickIndex 6 (fun _ => 0) 0 1 < 6 :=
  ⟨(generateTraits_catalog_bounds (fun _ => 0) 0 Gender.male "#FF0000").1.1,
   ((generateTraits_catalog_bounds (fun _ => 0) 0 Gender.male "#FF0000").2
     6 1 (by decide)).1,
   ((generateTraits_catalog_bounds (fun _ => 0) 0 Gender.male "#FF0000").2
     6 1 (by decide)).2⟩

/-- C2: `generateTraits` is a pure function of its arguments — two calls
with equal identifier, gender and color (and the same ambient sine) return
identical TraitSets in every field. -/
theorem generateTraits_deterministic (sinF : ℚ → ℚ) (fid₁ fid₂ : ℚ)
    (g₁ g₂ : Gender) (c₁ c₂ : String) (hf : fid₁ = fid₂) (hg : g₁ = g₂)
    (hc : c₁ = c₂) :
    generateTraits sinF fid₁ g₁ c₁ = generateTraits sinF fid₂ g₂ c₂ := by
  subst hf; subst hg; subst hc; rfl

/-- Witness for `generateTraits_deterministic` at a concrete input. -/
theorem generateTraits_deterministic_witness :
    generateTraits (fun _ => 0) 7 Gender.female "#00FF00" =
      generateTraits (fun _ => 0) 7 Gender.female "#00FF00" :=
  generateTraits_deterministic (fun _ => 0) 7 7 Gender.female Gender.female
    "#00FF00" "#00FF00" rfl rfl rfl

/-- C3: both color fields of the returned TraitSet mirror the single
supplied hex color. -/
theorem generateTraits_color_mirroring (sinF : ℚ → ℚ) (fid : ℚ) (g : Gender)
    (c : String) :
    (generateTraits sinF fid g c).hairColor = c ∧
    (generateTraits sinF fid g c).outfitColor = c ∧
    (generateTraits sinF fid g c).hairColor =
      (generateTraits sinF fid g c).outfitColor :=
  ⟨rfl, rfl, rfl⟩

/-- C4: the eight categorical fields depend on the identifier alone — two
calls differing only in gender and/or supplied color agree on all of them. -/
theorem generateTraits_categoricals_ignore_gender_color (sinF : ℚ → ℚ)
    (fid : ℚ) (g g' : Gender) (c c' : String) :
    (generateTraits sinF fid g c).skinTone =
      (generateTraits sinF fid g' c').skinTone ∧
    (generateTraits sinF fid g c).hairStyle =
      (generateTraits sinF fid g' c').hairStyle ∧
    (generateTraits sinF fid g c).eyeStyle =
      (generateTraits sinF fid g' c').eyeStyle ∧
    (generateTraits sinF fid g c).outfit =
      (generateTraits sinF fid g' c').outfit ∧
    (generateTraits sinF fid g c).accessory =
      (generateTraits sinF fid g' c').accessory ∧
    (generateTraits sinF fid g c).headAccessory =
      (generateTraits sinF fid g' c').headAccessory ∧
    (generateTraits sinF fid g c).background =
      (generateTraits sinF fid g' c').background ∧
    (generateTraits sinF fid g c).specialEffect =
      (generateTraits sinF fid g' c').specialEffect :=
  ⟨rfl, rfl, rfl, rfl, rfl, rfl, rfl, rfl⟩

/-- C6: the descriptive-color function maps pure black to `black`, pure
white to `pure white` (grayscale special case), and the saturated primary
`#FF0000` to a descriptor of the `red` hue family. -/
theorem hexToColorName_sanity :
    hexToColorName "#000000" = some "black" ∧
    hexToColorName "#FFFFFF" = some "pure white" ∧
    hexToColorName "#FF0000" = some "vivid medium red" := by
  refine ⟨?_, ?_, ?_⟩
  · rw [show hexToColorName "#000000" = some (colorNameOfRGB 0 0 0) from rfl]
    norm_num [colorNameOfRGB, hslOfRGB]
  · rw [show hexToColorName "#FFFFFF" =
        some (colorNameOfRGB 255 255 255) from rfl]
    norm_num [colorNameOfRGB, hslOfRGB]
  · rw [show hexToColorName "#FF0000" = some (colorNameOfRGB 255 0 0) from rfl]
    norm_num [colorNameOfRGB, hslOfRGB]
    rfl

/-- C7: `traitsToAttributes` returns exactly one entry per TraitSet field —
11 entries, gender included, hence between 10 and 11 — whose `trait_type`
labels are exactly the fixed label set in order and whose values equal the
corresponding input fields. -/
theorem traitsToAttributes_complete (t : WinterCheerTraits) :
    (traitsToAttributes t).length = 11 ∧
    10 ≤ (traitsToAttributes t).length ∧ (traitsToAttributes t).length ≤ 11 ∧
    (traitsToAttributes t).map Attribute.trait_type =
      ["Gender", "Skin Tone", "Hair Style", "Hair Color", "Eye Style",
       "Outfit", "Outfit Color", "Accessory", "Head Accessory", "Background",
       "Special Effect"] ∧
    (traitsToAttributes t).map Attribute.value =
      [genderToString t.gender, t.skinTone, t.hairStyle, t.hairColor,
       t.eyeStyle, t.outfit, t.outfitColor, t.accessory, t.headAccessory,
       t.background, t.specialEffect] := by
  exact ⟨rfl, by show (10:ℕ) ≤ 11; decide, by show (11:ℕ) ≤ 11; decide,
    rfl, rfl⟩

/-- C10: the generation prompt is independent of `outfitColor` — every color
phrase, the outfit one included, is derived from `hairColor` alone, so
changing only `outfitColor` leaves the prompt unchanged. -/
theorem buildPrompt_ignores_outfitColor (t : WinterCheerTraits) (c : String) :
    buildPromptFromTraits { t with outfitColor := c } =
      buildPromptFromTraits t := by
  cases t
  rfl

/-- The saturation-band expression of `hexToColorName` always yields one of
the four saturation names. -/
theorem satName_mem (s : ℚ) :
    (if s > 0.8 then "vivid"
     else if s > 0.5 then "vibrant"
     else if s > 0.2 then "muted"
     else "pale") ∈ SATURATION_NAMES := by
  split_ifs <;> decide

/-- The brightness-band expression of `hexToColorName` always yields one of
the five brightness names. -/
theorem brightName_mem (l : ℚ) :
    (if l > 0.8 then "very light"
     else if l > 0.6 then "light"
     else if l > 0.4 then "medium"
     else if l > 0.2 then "deep"
     else "very dark") ∈ BRIGHTNESS_NAMES := by
  split_ifs <;> decide

set_option maxHeartbeats 1000000 in
/-- The hue-bucketing chain of `hexToColorName` always yields one of the
thirteen family names. -/
theorem famName_mem (hue : ℚ) :
    (if hue < 15 ∨ hue ≥ 345 then "red"
     else if hue < 45 then "orange-red"
     else if hue < 70 then "orange"
     else if hue < 90 then "yellow-orange"
     else if hue < 150 then "yellow-green"
     else if hue < 170 then "green"
     else if hue < 200 then "cyan-green"
     else if hue < 220 then "cyan"
     else if hue < 250 then "blue"
     else if hue < 280 then "purple-blue"
     else if hue < 310 then "purple"
     else if hue < 330 then "magenta"
     else "pink-red") ∈ COLOR_FAMILY_NAMES := by
  split_ifs <;> simp [COLOR_FAMILY_NAMES]

/-- C5 (amended): the descriptor bands are exact — 4 saturation names,
5 brightness names, 13 (not 12) pairwise-distinct hue family names; below
the 0.1 saturation threshold the output falls back to one of the 5
grayscale names, and otherwise it has the form
`saturation brightness family` drawn from those bands. -/
theorem hexToColorName_band_structure :
    (∀ r g b : ℕ,
      (hslSaturation r g b < 0.1 →
        colorNameOfRGB r g b ∈ GRAYSCALE_NAMES) ∧
      (¬ hslSaturation r g b < 0.1 →
        ∃ sN bN fN, sN ∈ SATURATION_NAMES ∧ bN ∈ BRIGHTNESS_NAMES ∧
          fN ∈ COLOR_FAMILY_NAMES ∧
          colorNameOfRGB r g b = sN ++ " " ++ bN ++ " " ++ fN)) ∧
    (∀ hex out : String, hexToColorName hex = some out →
      ∃ r g b : ℕ, colorNameOfRGB r g b = out) ∧
    SATURATION_NAMES.length = 4 ∧ BRIGHTNESS_NAMES.length = 5 ∧
    COLOR_FAMILY_NAMES.length = 13 ∧ GRAYSCALE_NAMES.length = 5 ∧
    COLOR_FAMILY_NAMES.Nodup := by
  refine ⟨fun r g b => ⟨?_, ?_⟩, ?_, rfl, rfl, rfl, rfl, by decide⟩
  · intro h
    simp only [hslSaturation] at h
    simp only [colorNameOfRGB]
    generalize hslOfRGB r g b = p at h ⊢
    rw [if_pos h]
    split_ifs <;> decide
  · intro h
    simp only [hslSaturation] at h
    simp only [colorNameOfRGB]
    generalize hslOfRGB r g b = p at h ⊢
    rw [if_neg h]
    exact ⟨_, _, _, satName_mem p.2.1, brightName_mem p.2.2,
      famName_mem (p.1 * 360), rfl⟩
  · intro hex out h
    simp only [hexToColorName] at h
    rcases h1 : parseIntHex (jsSubstring (removeFirstHash hex) 0 2) with _ | r <;>
      rcases h2 : parseIntHex (jsSubstring (removeFirstHash hex) 2 4) with _ | g <;>
        rcases h3 : parseIntHex (jsSubstring (removeFirstHash hex) 4 6) with _ | b <;>
          rw [h1, h2, h3] at h <;> simp only [Option.some.injEq] at h <;>
            try exact absurd h (by simp)
    exact ⟨r, g, b, h⟩

/-- Witness for `hexToColorName_band_structure` at concrete inputs: the
grayscale fallback at black, and the lifting clause at a parseable hex. -/
theorem hexToColorName_band_structure_witness :
    colorNameOfRGB 0 0 0 ∈ GRAYSCALE_NAMES ∧
    (∃ r g b : ℕ, colorNameOfRGB r g b = "vivid medium red") :=
  ⟨(hexToColorName_band_structure.1 0 0 0).1 (by norm_num [hslSaturation, hslOfRGB]),
   hexToColorName_band_structure.2.1 "#FF0000" "vivid medium red"
     (by rw [show hexToColorName "#FF0000" =
           some (colorNameOfRGB 255 0 0) from rfl]
         norm_num [colorNameOfRGB, hslOfRGB]
         rfl)⟩

/-- Counterexample to C5 as stated: the hue-bucketing chain realises 13
pairwise-distinct color family names, not 12 — one concrete input per
family. -/
theorem hexToColorName_thirteen_families :
    hexToColorName "#FF0000" = some "vivid medium red" ∧
    hexToColorName "#FF8000" = some "vivid medium orange-red" ∧
    hexToColorName "#FFF500" = some "vivid medium orange" ∧
    hexToColorName "#AAFF00" = some "vivid medium yellow-orange" ∧
    hexToColorName "#00FF00" = some "vivid medium yellow-green" ∧
    hexToColorName "#00FFAA" = some "vivid medium green" ∧
    hexToColorName "#00FFFF" = some "vivid medium cyan-green" ∧
    hexToColorName "#0080FF" = some "vivid medium cyan" ∧
    hexToColorName "#0000FF" = some "vivid medium blue" ∧
    hexToColorName "#8000FF" = some "vivid medium purple-blue" ∧
    hexToColorName "#FF00FF" = some "vivid medium purple" ∧
    hexToColorName "#FF00AA" = some "vivid medium magenta" ∧
    hexToColorName "#FF0055" = some "vivid medium pink-red" ∧
    ["red", "orange-red", "orange", "yellow-orange", "yellow-green", "green",
     "cyan-green", "cyan", "blue", "purple-blue", "purple", "magenta",
     "pink-red"].Nodup ∧
    ["red", "orange-red", "orange", "yellow-orange", "yellow-green", "green",
     "cyan-green", "cyan", "blue", "purple-blue", "purple", "magenta",
     "pink-red"].length = 13 := by
  refine ⟨?_, ?_, ?_, ?_, ?_, ?_, ?_, ?_, ?_, ?_, ?_, ?_, ?_,
    by decide, rfl⟩
  · rw [show hexToColorName "#FF0000" = some (colorNameOfRGB 255 0 0) from rfl]
    norm_num [colorNameOfRGB, hslOfRGB]; rfl
  · rw [show hexToColorName "#FF8000" =
        some (colorNameOfRGB 255 128 0) from rfl]
    norm_num [colorNameOfRGB, hslOfRGB]; rfl
  · rw [show hexToColorName "#FFF500" =
        some (colorNameOfRGB 255 245 0) from rfl]
    norm_num [colorNameOfRGB, hslOfRGB]; rfl
  · rw [show hexToColorName "#AAFF00" =
        some (colorNameOfRGB 170 255 0) from rfl]
    norm_num [colorNameOfRGB, hslOfRGB]; rfl
  · rw [show hexToColorName "#00FF00" = some (colorNameOfRGB 0 255 0) from rfl]
    norm_num [colorNameOfRGB, hslOfRGB]; rfl
  · rw [show hexToColorName "#00FFAA" =
        some (colorNameOfRGB 0 255 170) from rfl]
    norm_num [colorNameOfRGB, hslOfRGB]; rfl
  · rw [show hexToColorName "#00FFFF" =
        some (colorNameOfRGB 0 255 255) from rfl]
    norm_num [colorNameOfRGB, hslOfRGB]; rfl
  · rw [show hexToColorName "#0080FF" =
        some (colorNameOfRGB 0 128 255) from rfl]
    norm_num [colorNameOfRGB, hslOfRGB]; rfl
  · rw [show hexToColorName "#0000FF" = some (colorNameOfRGB 0 0 255) from rfl]
    norm_num [colorNameOfRGB, hslOfRGB]; rfl
  · rw [show hexToColorName "#8000FF" =
        some (colorNameOfRGB 128 0 255) from rfl]
    norm_num [colorNameOfRGB, hslOfRGB]; rfl
  · rw [show hexToColorName "#FF00FF" =
        some (colorNameOfRGB 255 0 255) from rfl]
    norm_num [colorNameOfRGB, hslOfRGB]; rfl
  · rw [show hexToColorName "#FF00AA" =
        some (colorNameOfRGB 255 0 170) from rfl]
    norm_num [colorNameOfRGB, hslOfRGB]; rfl
  · rw [show hexToColorName "#FF0055" =
        some (colorNameOfRGB 255 0 85) from rfl]
    norm_num [colorNameOfRGB, hslOfRGB]; rfl

/-- C8: when the already-minted flag is set, `mintNFT` short-circuits to the
already-minted presentation (the error message, `step` unchanged) with an
empty event trace: no step transition to `analyzing`, `generating`,
`uploading` or `minting` occurs and no collaborator is invoked. -/
theorem mintNFT_already_minted_short_circuit (inp : MintInputs)
    (prev : MintState) (n : ℕ)
    (hconn : inp.isConnected = true)
    (haddr : optStringTruthy inp.address = true)
    (hwc : inp.walletClient = true)
    (hfid : inp.fid = some n) (hn : n ≠ 0)
    (hpfp : optStringTruthy inp.pfpUrl = true)
    (hm : inp.hasAlreadyMinted = true) :
    mintNFT inp prev =
      ({ prev with
          error := some ("FID " ++ toString n ++
            " has already minted a Winter Cheer NFT") }, []) := by
  simp [mintNFT, hconn, haddr, hwc, hfid, hpfp, hm, optNatTruthy, hn]

/-- Witness for `mintNFT_already_minted_short_circuit` at a concrete
input. -/
theorem mintNFT_already_minted_short_circuit_witness :
    mintNFT mintInputsW mintPrevW =
      ({ mintPrevW with
          error := some ("FID " ++ toString 1 ++
            " has already minted a Winter Cheer NFT") }, []) :=
  mintNFT_already_minted_short_circuit mintInputsW mintPrevW 1 rfl rfl rfl rfl
    (by decide) rfl rfl

/-- Every chunk produced by the slicing loop has at most `size` elements. -/
theorem chunksAux_length_le {α : Type} (size : ℕ) :
    ∀ (fuel : ℕ) (l : List α), ∀ c ∈ chunksAux size fuel l, c.length ≤ size := by
  intro fuel
  induction fuel with
  | zero =>
    intro l c hc
    cases l with
    | nil => simp [chunksAux] at hc
    | cons x xs => simp [chunksAux] at hc
  | succ f ih =>
    intro l c hc
    cases l with
    | nil => simp [chunksAux] at hc
    | cons x xs =>
      simp only [chunksAux, List.mem_cons] at hc
      rcases hc with rfl | hc
      · simp [List.length_take]
      · exact ih _ c hc

/-- Inserting one item grows the total group size by exactly one. -/
theorem totalLen_insertGroup (acc : List (String × List TokenInfo))
    (item : TokenInfo) : totalLen (insertGroup acc item) = totalLen acc + 1 := by
  induction acc with
  | nil => simp [insertGroup, totalLen]
  | cons p rest ih =>
    obtain ⟨u, its⟩ := p
    by_cases h : u = item.notification_url
    · simp [insertGroup, h, totalLen]
      omega
    · simp only [insertGroup, if_neg h, totalLen, List.map_cons, List.sum_cons]
      simp only [totalLen] at ih
      omega

/-- Each group is at most the total over all groups. -/
theorem length_le_totalLen (gs : List (String × List TokenInfo)) :
    ∀ g ∈ gs, g.2.length ≤ totalLen gs := by
  induction gs with
  | nil => intro g hg; simp at hg
  | cons p rest ih =>
    intro g hg
    rcases List.mem_cons.1 hg with rfl | hg
    · simp [totalLen]
    · have := ih g hg
      simp only [totalLen, List.map_cons, List.sum_cons]
      simp only [totalLen] at this
      omega

/-- Folding the grouping step over a batch accounts for every element. -/
theorem totalLen_foldl (l : List TokenInfo) :
    ∀ acc, totalLen (l.foldl insertGroup acc) = totalLen acc + l.length := by
  induction l with
  | nil => intro acc; simp
  | cons x xs ih =>
    intro acc
    simp only [List.foldl_cons, List.length_cons]
    rw [ih, totalLen_insertGroup]
    omega

/-- No URL group of a batch holds more tokens than the batch itself. -/
theorem groupByUrl_length_le (batch : List TokenInfo) :
    ∀ g ∈ groupByUrl batch, g.2.length ≤ batch.length := by
  intro g hg
  have h1 := length_le_totalLen (groupByUrl batch) g hg
  have h2 := totalLen_foldl batch []
  simp only [groupByUrl] at h1
  have h0 : totalLen ([] : List (String × List TokenInfo)) = 0 := rfl
  rw [h0] at h2
  omega

/-- Every delivery issued by the delivery phase carries at most 100
tokens. -/
theorem sendToTokens_batch_le (nid title messageBody targetUrl : String)
    (toks : List TokenInfo) :
    ∀ d ∈ deliveriesOf (sendToTokens nid title messageBody targetUrl toks),
      d.tokens.length ≤ 100 := by
  intro d hd
  unfold sendToTokens at hd
  by_cases h : toks.length = 0
  · simp [h, deliveriesOf] at hd
  · simp only [if_neg h, deliveriesOf] at hd
    rcases List.mem_flatMap.1 hd with ⟨batch, hb, hd2⟩
    rcases List.mem_map.1 hd2 with ⟨grp, hg, rfl⟩
    simp only [List.length_map]
    calc grp.2.length ≤ batch.length := groupByUrl_length_le batch grp hg
      _ ≤ 100 := chunksAux_length_le 100 toks.length toks batch hb

/-- C9: the POST handler answers every request missing the
`notificationId` idempotency key, or exceeding the 32/128/1024-character
limits on title, body and target URL, with a 400 validation error (hence
issues no relay delivery), and every relay delivery of an accepted request
carries at most 100 recipient tokens. -/
theorem sendNotification_validation_and_batching
    (req : SendNotificationRequest)
    (activeTokens : Except String (List TokenInfo))
    (tokenByFid : ℕ → Option TokenInfo) :
    ((req.notificationId = none ∨ 32 < (req.title.getD "").length ∨
        128 < (req.body.getD "").length ∨
        1024 < (req.targetUrl.getD "").length) →
      isBadRequest (sendNotificationPOST req activeTokens tokenByFid) = true) ∧
    (∀ d ∈ deliveriesOf (sendNotificationPOST req activeTokens tokenByFid),
      d.tokens.length ≤ 100) := by
  constructor
  · intro hprem
    unfold sendNotificationPOST
    split_ifs with h1 h2 h3 h4 h5 h6 <;> try rfl
    all_goals
      exfalso
      rcases hprem with h | h | h | h
      · rw [h] at h2; simp [optStringTruthy] at h2
      · exact h4 h
      · exact h5 h
      · exact h6 h
  · intro d hd
    unfold sendNotificationPOST at hd
    split_ifs at hd <;> try simp [deliveriesOf] at hd
    · revert hd
      cases activeTokens with
      | error e => intro hd; simp [deliveriesOf] at hd
      | ok toks => exact fun hd => sendToTokens_batch_le _ _ _ _ _ d hd
    · revert hd
      cases hf : req.fids with
      | none => intro hd; simp [deliveriesOf] at hd
      | some fids =>
        by_cases hl : 0 < fids.length
        · simp only [if_pos hl]
          exact fun hd => sendToTokens_batch_le _ _ _ _ _ d hd
        · intro hd; simp [if_neg hl, deliveriesOf] at hd

/-- Witness for `sendNotification_validation_and_batching` at concrete
inputs: a request without `notificationId` is rejected, and a delivered
batch obeys the 100-token bound. -/
theorem sendNotification_validation_and_batching_witness :
    isBadRequest
      (sendNotificationPOST reqMissingIdW (Except.ok []) (fun _ => none)) =
      true ∧
    deliveryW ∈ deliveriesOf
      (sendNotificationPOST reqValidW (Except.ok toksW) (fun _ => none)) ∧
    deliveryW.tokens.length ≤ 100 :=
  ⟨(sendNotification_validation_and_batching reqMissingIdW (Except.ok [])
      (fun _ => none)).1 (Or.inl rfl),
   by decide,
   (sendNotification_validation_and_batching reqValidW (Except.ok toksW)
      (fun _ => none)).2 deliveryW (by decide)⟩
